import Mathlib

/-!
Shallow embedding of the voting-system backend (src/PythonAPI/main.py).

The SQLAlchemy-backed store is modelled as explicit lists of rows with
fresh-id counters; each endpoint becomes a pure function from request
arguments and a `DB` state to a result together with the successor state.
Python exceptions (FastAPI `HTTPException`, SQLAlchemy `IntegrityError`,
passlib `UnknownHashError`, jose `JWTError`) become explicit error values.
Cryptographic primitives (bcrypt, HMAC-SHA256 of the JWT) are modelled
symbolically: a JWT is either a payload signed under some key or malformed
data, and bcrypt is an abstract deterministic digest in a recognisable
format; only the properties the endpoints rely on (signature/format
checks) are modelled, not the cryptography itself.
-/

namespace VotingSystem

/-- Configuration constant from main.py line 22 (default value). -/
def SECRET_KEY : String := "your-secret-key-change-in-production"

/-- Configuration constant from main.py line 24. -/
def ACCESS_TOKEN_EXPIRE_MINUTES : Nat := 30

/-- HTTP-level error outcomes the endpoints can surface.
`badRequest` = 400, `unauthorized` = 401, `notFound` = 404,
`serverError` = an unhandled Python exception escaping the handler (500). -/
inductive ApiErr where
  | badRequest
  | unauthorized
  | notFound
  | serverError
deriving DecidableEq

/-- Python-level exceptions raised by libraries the code calls. -/
inductive PyExn where
  | unknownHashError
  | integrityError
deriving DecidableEq

/-- Row of the users table (main.py class User). -/
structure User where
  id : Nat
  username : String
  email : String
  password_hash : String
  created_at : Nat
  updated_at : Nat
deriving DecidableEq

/-- Row of the features table (main.py class Feature); `vote_count` is the
stored counter column with default 0. -/
structure Feature where
  id : Nat
  title : String
  description : String
  user_id : Nat
  vote_count : Nat
  status : String
  created_at : Nat
  updated_at : Nat
deriving DecidableEq

/-- Row of the votes table (main.py class Vote); the table carries
UniqueConstraint(user_id, feature_id). -/
structure Vote where
  id : Nat
  user_id : Nat
  feature_id : Nat
  vote_type : Nat
  created_at : Nat
deriving DecidableEq

/-- The database state: the three tables, primary-key counters and the
store clock used for func.now() defaults. -/
structure DB where
  users : List User
  features : List Feature
  votes : List Vote
  nextUserId : Nat
  nextFeatureId : Nat
  nextVoteId : Nat
  now : Nat
deriving DecidableEq

/-- Request body of POST /register (main.py class UserCreate). -/
structure UserCreate where
  username : String
  email : String
  password : String
deriving DecidableEq

/-- Request body of POST /features (main.py class FeatureCreate). -/
structure FeatureCreate where
  title : String
  description : String
deriving DecidableEq

/-- Response shape of the feature endpoints (main.py class FeatureResponse). -/
structure FeatureResponse where
  id : Nat
  title : String
  description : String
  user_id : Nat
  username : String
  vote_count : Nat
  status : String
  created_at : Nat
  user_voted : Bool
deriving DecidableEq

/-- Remove the first element satisfying `p`; models deleting the row the
query's .first() returned. -/
def deleteFirst (p : α → Bool) : List α → List α
  | [] => []
  | x :: xs => if p x then xs else x :: deleteFirst p xs

/-- The filter used by the vote queries: rows of the (user, feature) pair. -/
def votePred (uid fid : Nat) (v : Vote) : Bool :=
  v.user_id == uid && v.feature_id == fid

/-- Existence of a Vote row for the pair, as the code's
query(Vote).filter(user_id, feature_id).first() observes it. -/
def hasVoted (uid fid : Nat) (db : DB) : Bool :=
  db.votes.any (votePred uid fid)

/-- Number of Vote rows referencing a feature (the derived count). -/
def voteRows (fid : Nat) (db : DB) : Nat :=
  db.votes.countP (fun v => v.feature_id == fid)

/-- Number of Vote rows for one (user, feature) pair. -/
def pairRows (uid fid : Nat) (db : DB) : Nat :=
  db.votes.countP (votePred uid fid)

/-- Simple deterministic string hash standing in for the bcrypt key
derivation; its internals are irrelevant to every claim, only determinism
in the password is used. -/
def strHash (s : String) : Nat :=
  s.data.foldl (fun h c => (h * 31 + c.toNat) % 1000000007) 7

/-- Model of pwd_context.hash (main.py get_password_hash): produces a
digest in the bcrypt format. passlib's salt-per-call is abstracted to a
fixed model salt, which no claim depends on. -/
def get_password_hash (password : String) : String :=
  "$2b$12$modelsalt$" ++ toString (strHash password)

/-- Model of passlib's hash identification: a digest is recognised by the
context (schemes = [bcrypt]) when it carries the bcrypt prefix. -/
def pyIdentifyBcrypt (digest : String) : Bool :=
  match digest.data with
  | '$' :: '2' :: 'b' :: '$' :: _ => true
  | _ => false

/-- Model of pwd_context.verify (main.py verify_password).
passlib's CryptContext.verify raises UnknownHashError (a ValueError) when
the digest matches none of the configured schemes; otherwise it recomputes
and compares. The raised exception is the .error outcome. -/
def verify_password (plain_password hashed_password : String) : Except PyExn Bool :=
  if pyIdentifyBcrypt hashed_password then
    .ok (hashed_password == get_password_hash plain_password)
  else
    .error .unknownHashError

/-- Symbolic model of a JWT: either a (sub, exp) payload signed under some
key, or data that is not a well-signed token at all (tampered or
unparseable). An attacker without the key can only produce the second
form or a token signed under a different key. -/
inductive Jwt where
  | signed (key : String) (sub : Option String) (exp : Nat)
  | malformed (raw : String)
deriving DecidableEq

/-- Decoded claim set. -/
structure Claims where
  sub : Option String
  exp : Nat
deriving DecidableEq

/-- Model of main.py create_access_token: copies the data (its only caller
passes sub = username), sets exp = now + delta (default 15 minutes), and
signs with SECRET_KEY. Times are in seconds. -/
def create_access_token (sub : Option String) (expires_delta : Option Nat) (now : Nat) : Jwt :=
  let expire := now + (match expires_delta with | some d => d | none => 15 * 60)
  .signed SECRET_KEY sub expire

/-- Model of jose jwt.decode(token, SECRET_KEY, [HS256]) at time `now`:
returns the claims when the signature verifies under `key` and the exp
claim has not passed (jose rejects when exp < now); `none` models the
raised JWTError (bad signature, unparseable structure, or expiry). -/
def jwt_decode (tok : Jwt) (key : String) (now : Nat) : Option Claims :=
  match tok with
  | .malformed _ => none
  | .signed k sub exp => if k == key && !(exp < now) then some ⟨sub, exp⟩ else none

/-- Whether the token's signature verifies under the process secret; a
malformed token has no valid signature. -/
def tokenSigOk (tok : Jwt) : Bool :=
  match tok with
  | .signed k _ _ => k == SECRET_KEY
  | .malformed _ => false

/-- Whether the token's expiry has passed at time `now`. -/
def tokenExpired (tok : Jwt) (now : Nat) : Bool :=
  match tok with
  | .signed _ _ exp => exp < now
  | .malformed _ => false

/-- The subject claim carried by the token, when any. -/
def tokenSub (tok : Jwt) : Option String :=
  match tok with
  | .signed _ sub _ => sub
  | .malformed _ => none

/-- Model of main.py get_current_user: decode the token (JWTError is
caught and mapped to the 401 credentials_exception), reject a missing sub
claim with 401, then resolve the username against the users table,
rejecting an unknown user with 401. -/
def get_current_user (token : Jwt) (db : DB) (now : Nat) : Except ApiErr User :=
  match jwt_decode token SECRET_KEY now with
  | none => .error .unauthorized
  | some payload =>
    match payload.sub with
    | none => .error .unauthorized
    | some username =>
      match db.users.find? (fun w => w.username == username) with
      | none => .error .unauthorized
      | some u => .ok u

/-- Model of POST /register (main.py register): one query checks for an
existing row with the same username OR email and raises 400 before
anything is hashed or written; otherwise the password is hashed and the
new row inserted and committed. -/
def register (user : UserCreate) (db : DB) : Except ApiErr User × DB :=
  if db.users.any (fun w => w.username == user.username || w.email == user.email) then
    (.error .badRequest, db)
  else
    let hashed_password := get_password_hash user.password
    let db_user : User :=
      { id := db.nextUserId, username := user.username, email := user.email,
        password_hash := hashed_password, created_at := db.now, updated_at := db.now }
    (.ok db_user, { db with users := db.users ++ [db_user], nextUserId := db.nextUserId + 1 })

/-- Model of POST /features (main.py create_feature): inserts a feature
with the column defaults (vote_count 0, status open) and returns the
response with user_voted = false. -/
def create_feature (feature : FeatureCreate) (current_user : User) (db : DB) :
    FeatureResponse × DB :=
  let db_feature : Feature :=
    { id := db.nextFeatureId, title := feature.title, description := feature.description,
      user_id := current_user.id, vote_count := 0, status := "open",
      created_at := db.now, updated_at := db.now }
  ({ id := db_feature.id, title := db_feature.title, description := db_feature.description,
     user_id := db_feature.user_id, username := current_user.username,
     vote_count := db_feature.vote_count, status := db_feature.status,
     created_at := db_feature.created_at, user_voted := false },
   { db with features := db.features ++ [db_feature], nextFeatureId := db.nextFeatureId + 1 })

/-- The Vote row the toggle's insert path constructs (vote_type 1, fresh
primary key, created_at from the store clock). -/
def newVote (uid fid : Nat) (db : DB) : Vote :=
  { id := db.nextVoteId, user_id := uid, feature_id := fid, vote_type := 1, created_at := db.now }

/-- Attempted INSERT INTO votes as the database executes it: the table's
UniqueConstraint(user_id, feature_id) rejects a duplicate pair with an
IntegrityError; otherwise the row is stored under a fresh primary key. -/
def dbTryInsertVote (uid fid : Nat) (db : DB) : Except PyExn DB :=
  if db.votes.any (votePred uid fid) then
    .error .integrityError
  else
    .ok { db with votes := db.votes ++ [newVote uid fid db], nextVoteId := db.nextVoteId + 1 }

/-- Model of POST /features/(id)/vote (main.py vote_feature): 404 when the
feature row is absent; otherwise query the pair's Vote row and either
delete it (voted = false) or insert a fresh one (voted = true). The code
wraps the insert in no exception handler, so an IntegrityError from the
unique constraint escapes as a 500. -/
def vote_feature (feature_id : Nat) (current_user : User) (db : DB) :
    Except ApiErr Bool × DB :=
  if db.features.any (fun f => f.id == feature_id) then
    if hasVoted current_user.id feature_id db then
      (.ok false, { db with votes := deleteFirst (votePred current_user.id feature_id) db.votes })
    else
      match dbTryInsertVote current_user.id feature_id db with
      | .ok db2 => (.ok true, db2)
      | .error _ => (.error .serverError, db)
  else
    (.error .notFound, db)

/-- Model of DELETE /features/(id) (main.py delete_feature): 404 when no
feature row matches id and owner. On session.delete(feature) + commit,
the votes relationship carries no delete cascade and the foreign key has
no ON DELETE action, so SQLAlchemy nullifies votes.feature_id on the
feature's votes; that column is NOT NULL, so the flush raises an
IntegrityError (unhandled, a 500) and the transaction leaves the store
unchanged. Only a vote-less feature is actually deleted. -/
def delete_feature (feature_id : Nat) (current_user : User) (db : DB) :
    Except ApiErr Unit × DB :=
  if db.features.any (fun f => f.id == feature_id && f.user_id == current_user.id) then
    if db.votes.any (fun v => v.feature_id == feature_id) then
      (.error .serverError, db)
    else
      (.ok (), { db with features := db.features.filter (fun f => !(f.id == feature_id)) })
  else
    (.error .notFound, db)

/-- Stable insertion into a list sorted descending by `key`: the new
element goes before the first element whose key is not larger. -/
def insertDescBy (key : Feature → Nat) (x : Feature) : List Feature → List Feature
  | [] => [x]
  | y :: ys => if key y ≤ key x then x :: y :: ys else y :: insertDescBy key x ys

/-- Stable descending sort by `key`; the deterministic model of the SQL
ORDER BY ... DESC the listing emits (ties keep table order). -/
def sortDescBy (key : Feature → Nat) : List Feature → List Feature
  | [] => []
  | x :: xs => insertDescBy key x (sortDescBy key xs)

/-- Model of GET /features (main.py get_features). The optional-auth block
reads oauth2_scheme._auto_error, an attribute that does not exist, so the
bare except always leaves current_user = None and user_voted is always
false. sort_by = votes orders by the stored vote_count column descending;
anything else orders by created_at descending; offset and limit apply to
the sorted rows. -/
def get_features (skip limit : Nat) (sort_by : String) (db : DB) : List FeatureResponse :=
  let sorted :=
    if sort_by == "votes" then sortDescBy (fun f => f.vote_count) db.features
    else sortDescBy (fun f => f.created_at) db.features
  ((sorted.drop skip).take limit).map (fun f =>
    { id := f.id, title := f.title, description := f.description, user_id := f.user_id,
      username := ((db.users.find? (fun w => w.id == f.user_id)).map (fun w => w.username)).getD "",
      vote_count := f.vote_count, status := f.status, created_at := f.created_at,
      user_voted := false })

/-- Whether a response list is ordered the way the specification demands
of by_votes: strictly descending in the derived vote-row count, with ties
broken by ascending feature id. -/
def derivedDescOk (db : DB) : List FeatureResponse → Bool
  | [] => true
  | [_] => true
  | a :: b :: rest =>
    (voteRows b.id db < voteRows a.id db ||
      (voteRows b.id db == voteRows a.id db && a.id < b.id)) &&
    derivedDescOk db (b :: rest)

/-- Progress of one in-flight vote_feature request, split at its two store
round trips: the reads (feature lookup and pair lookup) and the write. -/
inductive Phase where
  | start
  | readDone (sawVote : Bool)
  | finished (r : Except ApiErr Bool)

/-- One store round trip of an in-flight vote_feature call: from start,
perform the reads (404 when the feature is absent, otherwise record
whether the pair's Vote row exists); from readDone, perform the write the
code chose from that stale read — the delete, or the insert whose
IntegrityError (unique-constraint violation) escapes unhandled as a 500. -/
def toggleStep (u : User) (fid : Nat) (db : DB) (p : Phase) : DB × Phase :=
  match p with
  | .start =>
    if db.features.any (fun f => f.id == fid) then
      (db, .readDone (hasVoted u.id fid db))
    else
      (db, .finished (.error .notFound))
  | .readDone true =>
    ({ db with votes := deleteFirst (votePred u.id fid) db.votes }, .finished (.ok false))
  | .readDone false =>
    match dbTryInsertVote u.id fid db with
    | .ok db2 => (db2, .finished (.ok true))
    | .error _ => (db, .finished (.error .serverError))
  | .finished r => (db, .finished r)

/-- Two concurrent vote_feature calls for the same (user, feature) pair
over the shared store. -/
structure ConcState where
  db : DB
  p1 : Phase
  p2 : Phase

/-- Run one store round trip of request 1 (which = true) or request 2. -/
def concStep (u : User) (fid : Nat) (s : ConcState) (which : Bool) : ConcState :=
  if which then
    let r := toggleStep u fid s.db s.p1
    { db := r.1, p1 := r.2, p2 := s.p2 }
  else
    let r := toggleStep u fid s.db s.p2
    { db := r.1, p1 := s.p1, p2 := r.2 }

/-- Run the two concurrent calls under a given interleaving of their store
round trips. -/
def runSched (u : User) (fid : Nat) (sched : List Bool) (s : ConcState) : ConcState :=
  sched.foldl (concStep u fid) s

/-- Fixture: a registered user. -/
def alice : User :=
  { id := 1, username := "alice", email := "alice@example.com",
    password_hash := get_password_hash "wonderland", created_at := 0, updated_at := 0 }

/-- Fixture: a second registered user. -/
def bob : User :=
  { id := 2, username := "bob", email := "bob@example.com",
    password_hash := get_password_hash "builder", created_at := 0, updated_at := 0 }

/-- Fixture: store holding alice and one feature she owns, no votes. -/
def db0 : DB :=
  { users := [alice],
    features := [{ id := 1, title := "f1", description := "d1", user_id := 1,
                   vote_count := 0, status := "open", created_at := 0, updated_at := 0 }],
    votes := [], nextUserId := 2, nextFeatureId := 2, nextVoteId := 1, now := 5 }

/-- Fixture: store holding alice, her feature, and her vote on it. -/
def db7 : DB :=
  { users := [alice],
    features := [{ id := 1, title := "f1", description := "d1", user_id := 1,
                   vote_count := 0, status := "open", created_at := 0, updated_at := 0 }],
    votes := [{ id := 1, user_id := 1, feature_id := 1, vote_type := 1, created_at := 3 }],
    nextUserId := 2, nextFeatureId := 2, nextVoteId := 2, now := 5 }

/-- Fixture: two features with stored vote_count 0 (as every toggle leaves
it); feature 2 has one actual Vote row, feature 1 has none. -/
def db9 : DB :=
  { users := [alice, bob],
    features := [{ id := 1, title := "f1", description := "d1", user_id := 1,
                   vote_count := 0, status := "open", created_at := 0, updated_at := 0 },
                 { id := 2, title := "f2", description := "d2", user_id := 1,
                   vote_count := 0, status := "open", created_at := 1, updated_at := 1 }],
    votes := [{ id := 1, user_id := 2, feature_id := 2, vote_type := 1, created_at := 3 }],
    nextUserId := 3, nextFeatureId := 3, nextVoteId := 2, now := 5 }

end VotingSystem

namespace VotingSystem

/-- Removing the first match splits the list at the first element
satisfying the predicate. -/
theorem deleteFirst_spec (p : α → Bool) (l : List α) (h : l.any p = true) :
    ∃ l1 a l2, l = l1 ++ a :: l2 ∧ p a = true ∧ (∀ x ∈ l1, p x = false) ∧
      deleteFirst p l = l1 ++ l2 := by
  induction l with
  | nil => simp at h
  | cons x xs ih =>
    cases hx : p x with
    | true =>
      refine ⟨[], x, xs, rfl, hx, ?_, by simp [deleteFirst, hx]⟩
      intro y hy
      simp at hy
    | false =>
      have h2 : xs.any p = true := by simpa [List.any_cons, hx] using h
      obtain ⟨l1, a, l2, he, hpa, hcl, hd⟩ := ih h2
      refine ⟨x :: l1, a, l2, by simp [he], hpa, ?_, by simp [deleteFirst, hx, hd]⟩
      intro y hy
      rcases List.mem_cons.mp hy with hy | hy
      · exact hy ▸ hx
      · exact hcl y hy

/-- When nothing in the prefix matches, removing the first match from
`l ++ [a]` with a matching `a` returns `l`. -/
theorem deleteFirst_of_all_false (p : α → Bool) (l : List α)
    (h : ∀ x ∈ l, p x = false) (a : α) (ha : p a = true) :
    deleteFirst p (l ++ [a]) = l := by
  induction l with
  | nil => simp [deleteFirst, ha]
  | cons x xs ih =>
    have hx : p x = false := h x (List.mem_cons_self x xs)
    simp only [List.cons_append, deleteFirst, hx, Bool.false_eq_true, if_false,
      List.cons.injEq, true_and]
    exact ih (fun y hy => h y (List.mem_cons_of_mem x hy))

/-- C2: toggling a vote on an existing feature either inserts the pair's
Vote row and returns voted = true (when none exists) or deletes the
existing row and returns voted = false (when one exists); no error
outcome is possible. -/
theorem vote_feature_toggle (db : DB) (u : User) (fid : Nat)
    (hf : db.features.any (fun f => f.id == fid) = true) :
    (hasVoted u.id fid db = false →
      (vote_feature fid u db).1 = .ok true ∧
      pairRows u.id fid (vote_feature fid u db).2 = pairRows u.id fid db + 1 ∧
      voteRows fid (vote_feature fid u db).2 = voteRows fid db + 1) ∧
    (hasVoted u.id fid db = true →
      (vote_feature fid u db).1 = .ok false ∧
      pairRows u.id fid (vote_feature fid u db).2 = pairRows u.id fid db - 1 ∧
      voteRows fid (vote_feature fid u db).2 = voteRows fid db - 1) ∧
    (∀ e, (vote_feature fid u db).1 ≠ .error e) := by
  cases hv : hasVoted u.id fid db with
  | false =>
    have hanyf : db.votes.any (votePred u.id fid) = false := hv
    have hstep : vote_feature fid u db =
        (.ok true, { db with votes := db.votes ++ [newVote u.id fid db],
                             nextVoteId := db.nextVoteId + 1 }) := by
      simp [vote_feature, dbTryInsertVote, hasVoted, hf, hanyf]
    refine ⟨?_, ?_, ?_⟩
    · intro _
      rw [hstep]
      refine ⟨rfl, ?_, ?_⟩
      · simp [pairRows, votePred, newVote, List.countP_append, List.countP_cons]
      · simp [voteRows, newVote, List.countP_append, List.countP_cons]
    · intro htrue
      exact absurd htrue (by simp)
    · intro e
      rw [hstep]
      simp
  | true =>
    have hany : db.votes.any (votePred u.id fid) = true := hv
    obtain ⟨l1, a, l2, he, hpa, hcl, hd⟩ := deleteFirst_spec _ _ hany
    have hqa : (a.feature_id == fid) = true := by
      have := hpa
      simp only [votePred, Bool.and_eq_true] at this
      exact this.2
    have hl1p : l1.countP (votePred u.id fid) = 0 :=
      List.countP_eq_zero.mpr (fun x hx => by simp [hcl x hx])
    have hstep : vote_feature fid u db = (.ok false, { db with votes := l1 ++ l2 }) := by
      simp [vote_feature, hasVoted, hf, hany, hd]
    refine ⟨?_, ?_, ?_⟩
    · intro hfalse
      exact absurd hfalse (by simp)
    · intro _
      rw [hstep]
      refine ⟨rfl, ?_, ?_⟩
      · simp only [pairRows, he, List.countP_append, List.countP_cons, hpa, if_true]
        omega
      · simp only [voteRows, he, List.countP_append, List.countP_cons, hqa, if_true]
        omega
    · intro e
      rw [hstep]
      simp

/-- C2 witness: on the fixture store, alice's first toggle on feature 1
inserts the row and reports voted = true. -/
theorem vote_feature_toggle_witness :
    db0.features.any (fun f => f.id == 1) = true ∧
    hasVoted alice.id 1 db0 = false ∧
    (vote_feature 1 alice db0).1 = .ok true ∧
    voteRows 1 (vote_feature 1 alice db0).2 = voteRows 1 db0 + 1 := by
  have h := (vote_feature_toggle db0 alice 1 rfl).1 rfl
  exact ⟨rfl, rfl, h.1, h.2.2⟩

/-- C4: on an existing feature, toggling twice leaves the feature's Vote
row count exactly what it was, and from the no-vote state the two calls
return voted = true then voted = false and leave hasVoted false. The
store-enforced uniqueness constraint is assumed as the state invariant
(at most one Vote row for the pair). -/
theorem double_toggle (db : DB) (u : User) (fid : Nat)
    (hf : db.features.any (fun f => f.id == fid) = true)
    (huniq : pairRows u.id fid db ≤ 1) :
    voteRows fid (vote_feature fid u (vote_feature fid u db).2).2 = voteRows fid db ∧
    (hasVoted u.id fid db = false →
      (vote_feature fid u db).1 = .ok true ∧
      (vote_feature fid u (vote_feature fid u db).2).1 = .ok false ∧
      hasVoted u.id fid (vote_feature fid u (vote_feature fid u db).2).2 = false) := by
  cases hv : hasVoted u.id fid db with
  | false =>
    have hanyf : db.votes.any (votePred u.id fid) = false := hv
    have hprow : votePred u.id fid (newVote u.id fid db) = true := by simp [votePred, newVote]
    have h1 : vote_feature fid u db =
        (.ok true, { db with votes := db.votes ++ [newVote u.id fid db],
                             nextVoteId := db.nextVoteId + 1 }) := by
      simp [vote_feature, dbTryInsertVote, hasVoted, hf, hanyf]
    have hall : ∀ x ∈ db.votes, votePred u.id fid x = false := by
      intro x hx
      have h3 := List.any_eq_false.mp hanyf x hx
      simpa using h3
    have hdel : deleteFirst (votePred u.id fid) (db.votes ++ [newVote u.id fid db]) = db.votes :=
      deleteFirst_of_all_false _ _ hall _ hprow
    have h2 : vote_feature fid u
        { db with votes := db.votes ++ [newVote u.id fid db],
                  nextVoteId := db.nextVoteId + 1 } =
        (.ok false, { db with votes := db.votes, nextVoteId := db.nextVoteId + 1 }) := by
      simp [vote_feature, hasVoted, List.any_append, hf, hanyf, hprow, hdel]
    refine ⟨?_, fun _ => ⟨by simp [h1], by simp [h1, h2], ?_⟩⟩
    · simp [h1, h2, voteRows]
    · simp [h1, h2, hasVoted, hanyf]
  | true =>
    have hany : db.votes.any (votePred u.id fid) = true := hv
    obtain ⟨l1, a, l2, he, hpa, hcl, hd⟩ := deleteFirst_spec _ _ hany
    have hqa : (a.feature_id == fid) = true := by
      have h3 := hpa
      simp only [votePred, Bool.and_eq_true] at h3
      exact h3.2
    have hl2 : l2.countP (votePred u.id fid) = 0 := by
      have hcount : pairRows u.id fid db ≤ 1 := huniq
      have hl1 : l1.countP (votePred u.id fid) = 0 :=
        List.countP_eq_zero.mpr (fun x hx => by simp [hcl x hx])
      simp only [pairRows, he, List.countP_append, List.countP_cons, hpa, if_true, hl1] at hcount
      omega
    have hanyf2 : (l1 ++ l2).any (votePred u.id fid) = false := by
      rw [List.any_eq_false]
      intro x hx
      rcases List.mem_append.mp hx with hx | hx
      · simp [hcl x hx]
      · have h4 := List.countP_eq_zero.mp hl2 x hx
        simpa using h4
    have h1 : vote_feature fid u db = (.ok false, { db with votes := l1 ++ l2 }) := by
      simp [vote_feature, hasVoted, hf, hany, hd]
    have h2 : vote_feature fid u { db with votes := l1 ++ l2 } =
        (.ok true, { db with votes := (l1 ++ l2) ++ [newVote u.id fid db],
                             nextVoteId := db.nextVoteId + 1 }) := by
      simp [vote_feature, dbTryInsertVote, hasVoted, hf, hanyf2, newVote]
    refine ⟨?_, fun hfalse => absurd hfalse (by simp)⟩
    simp only [h1, h2, voteRows, he, List.countP_append, List.countP_cons, hqa, if_true]
    simp [newVote]
    omega

/-- C4 witness: on the fixture store, alice toggles feature 1 twice: true
then false, ending not-voted with the row count restored. -/
theorem double_toggle_witness :
    db0.features.any (fun f => f.id == 1) = true ∧ pairRows alice.id 1 db0 ≤ 1 ∧
    voteRows 1 (vote_feature 1 alice (vote_feature 1 alice db0).2).2 = voteRows 1 db0 ∧
    (vote_feature 1 alice db0).1 = .ok true ∧
    (vote_feature 1 alice (vote_feature 1 alice db0).2).1 = .ok false ∧
    hasVoted alice.id 1 (vote_feature 1 alice (vote_feature 1 alice db0).2).2 = false := by
  have h := double_toggle db0 alice 1 rfl (by decide)
  have h2 := h.2 rfl
  exact ⟨rfl, by decide, h.1, h2.1, h2.2.1, h2.2.2⟩


/-- Shape of identity resolution: it yields the 401 outcome or a user
whose username is the token's subject, and the latter only on a
well-signed, unexpired token. -/
theorem get_current_user_shape (tok : Jwt) (db : DB) (now : Nat) :
    get_current_user tok db now = .error .unauthorized ∨
    ∃ u, get_current_user tok db now = .ok u ∧ tokenSub tok = some u.username ∧
      tokenSigOk tok = true ∧ tokenExpired tok now = false := by
  cases tok with
  | malformed raw => exact Or.inl rfl
  | signed k sub exp =>
    cases hk : (k == SECRET_KEY) with
    | false =>
      exact Or.inl (by simp [get_current_user, jwt_decode, hk])
    | true =>
      cases hexp : (decide (exp < now)) with
      | true =>
        exact Or.inl (by simp [get_current_user, jwt_decode, hk, hexp])
      | false =>
        cases sub with
        | none => exact Or.inl (by simp [get_current_user, jwt_decode, hk, hexp])
        | some username =>
          cases hfind : db.users.find? (fun w => w.username == username) with
          | none => exact Or.inl (by simp [get_current_user, jwt_decode, hk, hexp, hfind])
          | some u0 =>
            refine Or.inr ⟨u0, ?_, ?_, ?_, ?_⟩
            · simp [get_current_user, jwt_decode, hk, hexp, hfind]
            · have hu : u0.username = username := by simpa using List.find?_some hfind
              simp [tokenSub, hu]
            · simpa [tokenSigOk] using hk
            · simpa [tokenExpired] using hexp

/-- C6: identity resolution fails with the 401 Unauthorized outcome
whenever the signature does not verify (including unparseable tokens),
the expiry has passed, or the subject claim is absent; 401 is the only
error it can produce, and on success the returned user carries the
embedded subject username. -/
theorem validate_error_handling (tok : Jwt) (db : DB) (now : Nat) :
    ((tokenSigOk tok = false ∨ tokenExpired tok now = true ∨ tokenSub tok = none) →
      get_current_user tok db now = .error .unauthorized) ∧
    (∀ e, get_current_user tok db now = .error e → e = .unauthorized) ∧
    (∀ u, get_current_user tok db now = .ok u → tokenSub tok = some u.username) := by
  rcases get_current_user_shape tok db now with h | ⟨u0, hu0, hsub, hsig, hexp⟩
  · refine ⟨fun _ => h, fun e he => ?_, fun u hu => ?_⟩
    · rw [h] at he
      exact (Except.error.inj he).symm
    · rw [h] at hu
      exact Except.noConfusion hu
  · refine ⟨fun hbad => ?_, fun e he => ?_, fun u hu => ?_⟩
    · rcases hbad with hbad | hbad | hbad
      · rw [hsig] at hbad
        exact absurd hbad (by simp)
      · rw [hexp] at hbad
        exact absurd hbad (by simp)
      · rw [hsub] at hbad
        exact Option.noConfusion hbad
    · rw [hu0] at he
      exact Except.noConfusion he
    · rw [hu0] at hu
      rw [← Except.ok.inj hu]
      exact hsub

/-- C6 witness: a token signed under the wrong key is rejected with 401. -/
theorem validate_error_handling_witness :
    tokenSigOk (Jwt.signed "wrong-key" (some "alice") 1000) = false ∧
    get_current_user (Jwt.signed "wrong-key" (some "alice") 1000) db0 100
      = .error .unauthorized :=
  ⟨rfl, (validate_error_handling (Jwt.signed "wrong-key" (some "alice") 1000) db0 100).1
    (Or.inl rfl)⟩

/-- C5 counterexample: issuing a token for a username with no user row and
validating it immediately (same secret, before expiry) does not return the
username — get_current_user rejects it with 401 because of its user-store
lookup. -/
theorem issue_validate_fails_for_unregistered :
    get_current_user (create_access_token (some "carol") (some 1800) 100) db0 100
      = .error .unauthorized := rfl

/-- C5 (amended): when a user row with the given username exists, issuing
a token and immediately validating it succeeds and returns that username
as the subject. -/
theorem issue_validate_roundtrip (username : String) (ttl now : Nat) (db : DB)
    (h : (db.users.find? (fun w => w.username == username)).isSome = true) :
    ∃ u, get_current_user (create_access_token (some username) (some ttl) now) db now
        = .ok u ∧ u.username = username := by
  obtain ⟨u0, hfind⟩ := Option.isSome_iff_exists.mp h
  have hu : u0.username = username := by simpa using List.find?_some hfind
  have hnl : ¬ (now + ttl < now) := by omega
  have hexp : decide (now + ttl < now) = false := decide_eq_false hnl
  refine ⟨u0, ?_, hu⟩
  simp [get_current_user, jwt_decode, create_access_token, hfind, hexp]

/-- C5 witness: alice is registered, so her freshly issued token resolves
back to alice. -/
theorem issue_validate_roundtrip_witness :
    (db0.users.find? (fun w => w.username == "alice")).isSome = true ∧
    ∃ u, get_current_user (create_access_token (some "alice") (some 1800) 100) db0 100
        = .ok u ∧ u.username = "alice" :=
  ⟨rfl, issue_validate_roundtrip "alice" 1800 100 db0 rfl⟩

/-- C10: when the conflict query finds a row with the same username or
email, register returns the 400 conflict and the store is exactly
unchanged — nothing is hashed or written first. -/
theorem register_conflict_unchanged (user : UserCreate) (db : DB)
    (h : db.users.any (fun w => w.username == user.username || w.email == user.email) = true) :
    register user db = (.error .badRequest, db) := by
  simp [register, h]

/-- C10 witness: re-registering the username alice conflicts and leaves
the store untouched. -/
theorem register_conflict_unchanged_witness :
    db0.users.any (fun w => w.username == "alice" || w.email == "new@example.com") = true ∧
    register { username := "alice", email := "new@example.com", password := "pw" } db0
      = (.error .badRequest, db0) :=
  ⟨rfl, register_conflict_unchanged
    { username := "alice", email := "new@example.com", password := "pw" } db0 rfl⟩

/-- C1 (code bug evidence): alice's toggle on feature 1 inserts a Vote
row, yet the stored vote_count column is never touched, so the listing
still displays 0 while one Vote row references the feature — the
displayed count drifts from the row count. -/
theorem vote_count_drifts_from_vote_rows :
    (vote_feature 1 alice db0).1 = .ok true ∧
    voteRows 1 (vote_feature 1 alice db0).2 = 1 ∧
    (get_features 0 100 "votes" (vote_feature 1 alice db0).2).map
        (fun r => (r.id, r.vote_count)) = [(1, 0)] :=
  ⟨rfl, rfl, rfl⟩

/-- C3 (code bug evidence): two concurrent toggles for (alice, feature 1)
from the no-vote state, interleaved read / read / insert / insert. The
unique constraint lets only one insert through (one Vote row remains),
but the loser's IntegrityError is unhandled and surfaces as a 500 server
error instead of the already-in-desired-state outcome. -/
theorem toggle_insert_race_surfaces_500 :
    (runSched alice 1 [true, false, true, false] ⟨db0, .start, .start⟩).p1
      = .finished (.ok true) ∧
    (runSched alice 1 [true, false, true, false] ⟨db0, .start, .start⟩).p2
      = .finished (.error .serverError) ∧
    voteRows 1 (runSched alice 1 [true, false, true, false] ⟨db0, .start, .start⟩).db = 1 :=
  ⟨rfl, rfl, rfl⟩

/-- C7 (code bug evidence): deleting feature 1, which has one Vote row,
fails with the unhandled integrity error (the cascade-less relationship
nullifies the NOT NULL votes.feature_id) and removes nothing, while a
vote-less feature deletes fine — votes are never cleaned up with their
feature. -/
theorem delete_feature_with_votes_fails :
    (delete_feature 1 alice db7).1 = .error .serverError ∧
    (delete_feature 1 alice db7).2 = db7 ∧
    voteRows 1 db7 = 1 ∧
    (delete_feature 1 alice db0).1 = .ok () :=
  ⟨rfl, rfl, rfl, rfl⟩

/-- C8 (code bug evidence): verify_password raises UnknownHashError on a
digest that is not in the bcrypt format instead of returning false, while
a well-formed matching digest verifies. -/
theorem verify_password_raises_on_malformed :
    verify_password "secret" "not-a-bcrypt-hash" = .error .unknownHashError ∧
    verify_password "wonderland" (get_password_hash "wonderland") = .ok true :=
  ⟨rfl, rfl⟩

/-- C9 (code bug evidence): with both stored counters at 0 (toggles never
update them) but feature 2 holding the only actual Vote row, the by-votes
listing returns feature 1 first — it orders by the stale stored counter,
not by the derived count with the id tie-break. -/
theorem by_votes_sorts_by_stale_counter :
    (get_features 0 100 "votes" db9).map (fun r => r.id) = [1, 2] ∧
    voteRows 2 db9 = 1 ∧ voteRows 1 db9 = 0 ∧
    derivedDescOk db9 (get_features 0 100 "votes" db9) = false :=
  ⟨rfl, rfl, rfl, rfl⟩

end VotingSystem

